import Mathlib

/-!
Shallow embedding of the multi-stage fallback query-resolution controller
(`src/agent.py`, with the points where `src/gg.py` differs embedded under
`_gg` names).  Values exchanged with the external collaborators (LLM
completions, database tools) are JSON-like Python values; Python dicts are
association lists of string keys in insertion order.  Exceptions are
modelled with `Except PyErr`; a `.error` escaping a top-level function is an
uncaught exception.
-/

/-- A JSON-like Python value. `jnull` doubles as Python `None`. -/
inductive JVal where
  | jnull : JVal
  | jbool : Bool → JVal
  | jnum : Int → JVal
  | jstr : String → JVal
  | jarr : List JVal → JVal
  | jobj : List (String × JVal) → JVal

mutual

/-- Boolean equality on JSON-like values. -/
def beqJVal : JVal → JVal → Bool
  | .jnull, .jnull => true
  | .jbool a, .jbool b => a == b
  | .jnum a, .jnum b => a == b
  | .jstr a, .jstr b => a == b
  | .jarr a, .jarr b => beqJValList a b
  | .jobj a, .jobj b => beqJValKVs a b
  | _, _ => false

/-- Boolean equality on lists of JSON-like values. -/
def beqJValList : List JVal → List JVal → Bool
  | [], [] => true
  | x :: xs, y :: ys => beqJVal x y && beqJValList xs ys
  | _, _ => false

/-- Boolean equality on association lists of JSON-like values. -/
def beqJValKVs : List (String × JVal) → List (String × JVal) → Bool
  | [], [] => true
  | (k, v) :: xs, (l, w) :: ys => k == l && beqJVal v w && beqJValKVs xs ys
  | _, _ => false

end

mutual

theorem beqJVal_refl : ∀ a : JVal, beqJVal a a = true
  | .jnull => rfl
  | .jbool a => by simp [beqJVal]
  | .jnum a => by simp [beqJVal]
  | .jstr a => by simp [beqJVal]
  | .jarr a => by simp [beqJVal, beqJValList_refl a]
  | .jobj a => by simp [beqJVal, beqJValKVs_refl a]

theorem beqJValList_refl : ∀ xs : List JVal, beqJValList xs xs = true
  | [] => rfl
  | x :: xs => by simp [beqJValList, beqJVal_refl x, beqJValList_refl xs]

theorem beqJValKVs_refl : ∀ xs : List (String × JVal), beqJValKVs xs xs = true
  | [] => rfl
  | (k, v) :: xs => by simp [beqJValKVs, beqJVal_refl v, beqJValKVs_refl xs]

end

mutual

theorem beqJVal_eq : ∀ a b : JVal, beqJVal a b = true → a = b
  | .jnull, .jnull, _ => rfl
  | .jbool a, .jbool b, h => by
      simp [beqJVal] at h; simp [h]
  | .jnum a, .jnum b, h => by
      simp [beqJVal] at h; simp [h]
  | .jstr a, .jstr b, h => by
      simp [beqJVal] at h; simp [h]
  | .jarr a, .jarr b, h => by
      rw [beqJValList_eq a b (by simpa [beqJVal] using h)]
  | .jobj a, .jobj b, h => by
      rw [beqJValKVs_eq a b (by simpa [beqJVal] using h)]
  | .jnull, .jbool _, h => by simp [beqJVal] at h
  | .jnull, .jnum _, h => by simp [beqJVal] at h
  | .jnull, .jstr _, h => by simp [beqJVal] at h
  | .jnull, .jarr _, h => by simp [beqJVal] at h
  | .jnull, .jobj _, h => by simp [beqJVal] at h
  | .jbool _, .jnull, h => by simp [beqJVal] at h
  | .jbool _, .jnum _, h => by simp [beqJVal] at h
  | .jbool _, .jstr _, h => by simp [beqJVal] at h
  | .jbool _, .jarr _, h => by simp [beqJVal] at h
  | .jbool _, .jobj _, h => by simp [beqJVal] at h
  | .jnum _, .jnull, h => by simp [beqJVal] at h
  | .jnum _, .jbool _, h => by simp [beqJVal] at h
  | .jnum _, .jstr _, h => by simp [beqJVal] at h
  | .jnum _, .jarr _, h => by simp [beqJVal] at h
  | .jnum _, .jobj _, h => by simp [beqJVal] at h
  | .jstr _, .jnull, h => by simp [beqJVal] at h
  | .jstr _, .jbool _, h => by simp [beqJVal] at h
  | .jstr _, .jnum _, h => by simp [beqJVal] at h
  | .jstr _, .jarr _, h => by simp [beqJVal] at h
  | .jstr _, .jobj _, h => by simp [beqJVal] at h
  | .jarr _, .jnull, h => by simp [beqJVal] at h
  | .jarr _, .jbool _, h => by simp [beqJVal] at h
  | .jarr _, .jnum _, h => by simp [beqJVal] at h
  | .jarr _, .jstr _, h => by simp [beqJVal] at h
  | .jarr _, .jobj _, h => by simp [beqJVal] at h
  | .jobj _, .jnull, h => by simp [beqJVal] at h
  | .jobj _, .jbool _, h => by simp [beqJVal] at h
  | .jobj _, .jnum _, h => by simp [beqJVal] at h
  | .jobj _, .jstr _, h => by simp [beqJVal] at h
  | .jobj _, .jarr _, h => by simp [beqJVal] at h

theorem beqJValList_eq : ∀ xs ys : List JVal, beqJValList xs ys = true → xs = ys
  | [], [], _ => rfl
  | [], _ :: _, h => by simp [beqJValList] at h
  | _ :: _, [], h => by simp [beqJValList] at h
  | x :: xs, y :: ys, h => by
      have h' := h
      simp only [beqJValList, Bool.and_eq_true] at h'
      rw [beqJVal_eq x y h'.1, beqJValList_eq xs ys h'.2]

theorem beqJValKVs_eq :
    ∀ xs ys : List (String × JVal), beqJValKVs xs ys = true → xs = ys
  | [], [], _ => rfl
  | [], _ :: _, h => by simp [beqJValKVs] at h
  | _ :: _, [], h => by simp [beqJValKVs] at h
  | (k, v) :: xs, (l, w) :: ys, h => by
      have h' := h
      simp only [beqJValKVs, Bool.and_eq_true, beq_iff_eq] at h'
      rw [h'.1.1, beqJVal_eq v w h'.1.2, beqJValKVs_eq xs ys h'.2]

end

instance : DecidableEq JVal := fun a b =>
  if h : beqJVal a b = true then .isTrue (beqJVal_eq a b h)
  else .isFalse (fun he => h (he ▸ beqJVal_refl a))

instance {ε α : Type} [DecidableEq ε] [DecidableEq α] : DecidableEq (Except ε α) :=
  fun a b =>
    match a, b with
    | .ok x, .ok y =>
        if h : x = y then .isTrue (by rw [h])
        else .isFalse (fun he => h (Except.ok.inj he))
    | .error x, .error y =>
        if h : x = y then .isTrue (by rw [h])
        else .isFalse (fun he => h (Except.error.inj he))
    | .ok _, .error _ => .isFalse (fun he => Except.noConfusion he)
    | .error _, .ok _ => .isFalse (fun he => Except.noConfusion he)

@[simp]
theorem exceptBind_ok {ε α β : Type} (a : α) (f : α → Except ε β) :
    (Except.ok a >>= f) = f a := rfl

@[simp]
theorem exceptBind_error {ε α β : Type} (e : ε) (f : α → Except ε β) :
    ((Except.error e : Except ε α) >>= f) = .error e := rfl

/-- A raised Python exception, by kind. `external` stands for an exception
thrown inside a collaborator call (LLM, agent runtime, database tool),
including a `json.loads` parse error of a completion response. -/
inductive PyErr where
  | keyError : String → PyErr
  | typeError : PyErr
  | attributeError : PyErr
  | valueError : String → PyErr
  | external : String → PyErr
deriving DecidableEq

/-- One line printed by the program while resolving a request (only the
prints the claims refer to are tracked). -/
inductive LogEvent where
  | agentFallback : LogEvent
  | tryingMatch : JVal → JVal → LogEvent
  | matchFailed : JVal → JVal → PyErr → LogEvent
  | tryingAgg : JVal → JVal → LogEvent
  | aggFailed : JVal → JVal → PyErr → LogEvent
  | schemaLoadFailed : JVal → JVal → LogEvent
  | matchResult : JVal → JVal → JVal → LogEvent
  | aggResult : JVal → JVal → JVal → LogEvent
  | agentResult : JVal → LogEvent
  | allRetriesFailed : LogEvent
deriving DecidableEq

/-- Python `v[k]` on a JSON-like value: key lookup on a dict, `KeyError`
when the key is absent, `TypeError` when `v` is not a dict. -/
def getItem (v : JVal) (k : String) : Except PyErr JVal :=
  match v with
  | .jobj kvs =>
      match kvs.lookup k with
      | some x => .ok x
      | none => .error (.keyError k)
  | _ => .error .typeError

/-- Python `v.get(k, dflt)`: `AttributeError` when `v` is not a dict. -/
def dictGet (v : JVal) (k : String) (dflt : JVal) : Except PyErr JVal :=
  match v with
  | .jobj kvs => .ok ((kvs.lookup k).getD dflt)
  | _ => .error .attributeError

/-- Python iteration `for x in v`: the elements of a list, the characters
of a string (as one-character strings), the keys of a dict; `TypeError`
otherwise. -/
def iterElems (v : JVal) : Except PyErr (List JVal) :=
  match v with
  | .jarr xs => .ok xs
  | .jstr s => .ok (s.data.map (fun ch => .jstr (String.mk [ch])))
  | .jobj kvs => .ok (kvs.map (fun p => .jstr p.1))
  | _ => .error .typeError

/-- Contiguous-sublist test on character lists, for Python `sub in s`. -/
def hasSubstring (needle : List Char) : List Char → Bool
  | [] => needle.isEmpty
  | c :: rest => needle.isPrefixOf (c :: rest) || hasSubstring needle rest

/-- Python `k in v` for a string `k`: membership for a list (a string `k`
only ever equals a string element), substring for a string, key membership
for a dict.  (On a number/bool/null Python raises `TypeError`; in the
program `v` is always the `string_fields` list, so that branch is never
reached and is modelled as `false`.) -/
def pyIn (k : String) (v : JVal) : Bool :=
  match v with
  | .jarr xs => xs.any (fun x => match x with | .jstr s => s == k | _ => false)
  | .jstr s => hasSubstring k.data s.data
  | .jobj kvs => kvs.any (fun p => p.1 == k)
  | _ => false

/-- Python dict update `{**kvs, k: x}`: an existing key keeps its position
and takes the new value, a new key is appended. -/
def dictUpdate (kvs : List (String × JVal)) (k : String) (x : JVal) :
    List (String × JVal) :=
  if kvs.any (fun p => p.1 == k) then
    kvs.map (fun p => if p.1 == k then (k, x) else p)
  else kvs ++ [(k, x)]

/-- Python truthiness of a JSON-like value (`if result:`). -/
def truthy : JVal → Bool
  | .jnull => false
  | .jbool b => b
  | .jnum n => n != 0
  | .jstr s => s != ""
  | .jarr xs => !xs.isEmpty
  | .jobj kvs => !kvs.isEmpty

/-- Embeds `schema.get("string_fields", [])`.  (In the program the schema argument
is always the dict built by `get_collection_schema`, so the non-dict
branch — where Python would raise — is never reached.) -/
def stringFieldsOf (schema : JVal) : JVal :=
  match schema with
  | .jobj kvs => (kvs.lookup "string_fields").getD (.jarr [])
  | _ => .jarr []

mutual

/-- Embeds `make_case_insensitive(obj, schema)` from `src/agent.py` lines 9-20
(identical in `src/gg.py` lines 10-22): every string value whose key is in
`schema.get("string_fields", [])` becomes a case-insensitive regex
condition, nested dicts are rewritten recursively, everything else is
copied unchanged; a non-dict argument is returned as is. -/
def make_case_insensitive (obj schema : JVal) : JVal :=
  match obj with
  | .jobj kvs => .jobj (mci_entries kvs schema)
  | v => v

/-- The entry-by-entry body of `make_case_insensitive`. -/
def mci_entries (kvs : List (String × JVal)) (schema : JVal) :
    List (String × JVal) :=
  match kvs with
  | [] => []
  | (k, v) :: rest =>
      (k,
        match v with
        | .jstr s =>
            if pyIn k (stringFieldsOf schema) then
              .jobj [("$regex", .jstr s), ("$options", .jstr "i")]
            else .jstr s
        | .jobj inner => make_case_insensitive (.jobj inner) schema
        | other => other) :: mci_entries rest schema

end

theorem mci_smoke :
    make_case_insensitive
      (.jobj [("color", .jstr "red"), ("year", .jnum 2020)])
      (.jobj [("string_fields", .jarr [.jstr "color"])]) =
    .jobj [("color", .jobj [("$regex", .jstr "red"), ("$options", .jstr "i")]),
           ("year", .jnum 2020)] := by decide

/-- One possible world of collaborator behaviour during a single resolution
attempt.  LLM completions are composed with the `json.loads` of their
response text, so a field yields either the parsed JSON value or the
exception raised by the call or by the parse. -/
structure Env where
  userInput : String
  planOutcome : Except PyErr JVal
  agentRun : Except PyErr JVal
  listDatabases : Except PyErr JVal
  listCollections : JVal → Except PyErr JVal
  rankCompletion : List (JVal × JVal) → Except PyErr JVal
  collectionSchema : JVal → JVal → Except PyErr JVal
  matchCompletion : JVal → Except PyErr JVal
  aggCompletion : JVal → Except PyErr JVal
  aggregate : JVal → JVal → JVal → Except PyErr JVal
  subAgentInvoke : JVal → Except PyErr JVal

/-- Embeds `isinstance(result, str) and "Found 0" in result` (`src/agent.py`
lines 75 and 127, `src/gg.py` line 133). -/
def found0 (v : JVal) : Bool :=
  match v with
  | .jstr s => hasSubstring "Found 0".data s.data
  | _ => false

/-- The sentinel test of `src/gg.py` line 84: the sentinel is misspelled
with a stray backtick, so it is the literal string written in the source,
not "Found 0". -/
def found0_gg (v : JVal) : Bool :=
  match v with
  | .jstr s => hasSubstring "F`ound 0".data s.data
  | _ => false

/-- Embeds `[d["name"] for d in elems]` (used for database and collection names,
`src/agent.py` lines 27 and 33). -/
def getNames : List JVal → Except PyErr (List JVal)
  | [] => .ok []
  | d :: rest => do
      let n ← getItem d "name"
      let ns ← getNames rest
      .ok (n :: ns)

/-- One round-trip of `src/agent.py` lines 31-33 / `src/gg.py` lines
35-36: list the collections of one database and extract their names. -/
def collections_for (env : Env) (db : JVal) : Except PyErr JVal := do
  let colls ← env.listCollections db
  let cl ← getItem colls "collections"
  let elems ← iterElems cl
  let names ← getNames elems
  .ok (.jarr names)

/-- The `db_coll_map` loop of `src/agent.py` lines 30-33: no per-database
handler, any failure propagates to the enclosing handler of
`suggest_db_collection_candidates`. -/
def build_inventory (env : Env) : List JVal → Except PyErr (List (JVal × JVal))
  | [] => .ok []
  | db :: rest => do
      let names ← collections_for env db
      let inv ← build_inventory env rest
      .ok ((db, names) :: inv)

/-- The `db_coll_map` loop of `src/gg.py` lines 33-38: each database has
its own `try`/`except Exception: continue`, so a failing database is
dropped and the loop goes on. -/
def build_inventory_gg (env : Env) : List JVal → List (JVal × JVal)
  | [] => []
  | db :: rest =>
      match collections_for env db with
      | .ok names => (db, names) :: build_inventory_gg env rest
      | .error _ => build_inventory_gg env rest

/-- The body of the `try` of `suggest_db_collection_candidates` in
`src/agent.py` lines 25-48: list databases, build the inventory, ask the
completion for the ranking and `json.loads` its response. -/
def rank_pipeline (env : Env) : Except PyErr JVal := do
  let dbs ← env.listDatabases
  let dbsV ← getItem dbs "databases"
  let dbElems ← iterElems dbsV
  let dbNames ← getNames dbElems
  let inv ← build_inventory env dbNames
  env.rankCompletion inv

/-- The body of the `try` of `suggest_db_collection_candidates` in
`src/gg.py` lines 28-54 (per-database failures are skipped). -/
def rank_pipeline_gg (env : Env) : Except PyErr JVal := do
  let dbs ← env.listDatabases
  let dbsV ← getItem dbs "databases"
  let dbElems ← iterElems dbsV
  let dbNames ← getNames dbElems
  env.rankCompletion (build_inventory_gg env dbNames)

/-- The embedded-literal fallback candidate list
`[{"database": "car_database", "collection": "cars"}]`
(`src/agent.py` line 51, `src/gg.py` line 57). -/
def fallback_candidates : JVal :=
  .jarr [.jobj [("database", .jstr "car_database"), ("collection", .jstr "cars")]]

/-- Embeds `suggest_db_collection_candidates` from `src/agent.py` lines 23-51:
the whole body is wrapped, any exception yields the fallback list. -/
def suggest_db_collection_candidates (env : Env) : JVal :=
  match rank_pipeline env with
  | .ok v => v
  | .error _ => fallback_candidates

/-- Embeds `suggest_db_collection_candidates` from `src/gg.py` lines 25-57. -/
def suggest_db_collection_candidates_gg (env : Env) : JVal :=
  match rank_pipeline_gg env with
  | .ok v => v
  | .error _ => fallback_candidates

/-- Embeds `[f["name"] for f in fields if f.get("bsonType") == "string"]`
(`src/agent.py` line 56, `src/gg.py` line 63). -/
def extract_string_fields : List JVal → Except PyErr (List JVal)
  | [] => .ok []
  | f :: rest => do
      let bt ← dictGet f "bsonType" .jnull
      if bt = .jstr "string" then
        let n ← getItem f "name"
        let ns ← extract_string_fields rest
        .ok (n :: ns)
      else
        extract_string_fields rest

/-- Embeds `{**schema, "string_fields": string_fields}`: a dict merge, `TypeError`
when the left operand is not a mapping. -/
def dictMergeKey (v : JVal) (k : String) (x : JVal) : Except PyErr JVal :=
  match v with
  | .jobj kvs => .ok (.jobj (dictUpdate kvs k x))
  | _ => .error .typeError

/-- Embeds `get_collection_schema` from `src/agent.py` lines 54-57 (identical in
`src/gg.py` lines 60-64): fetch the collection description and extend it
with the list of string-typed field names.  The function body has no
handler of its own; every exception propagates to the caller. -/
def get_collection_schema (env : Env) (db coll : JVal) : Except PyErr JVal := do
  let schema ← env.collectionSchema db coll
  let fieldsV ← dictGet schema "fields" (.jarr [])
  let fieldElems ← iterElems fieldsV
  let string_fields ← extract_string_fields fieldElems
  dictMergeKey schema "string_fields" (.jarr string_fields)

/-- Embeds `try_query_with_match` from `src/agent.py` lines 60-80: parse the
completion response, rewrite it case-insensitively, submit it as the sole
`$match` stage, raise on a "Found 0" text result; any exception is caught,
logged, and turned into `None`. -/
def try_query_with_match (env : Env) (db coll schema : JVal) :
    Option JVal × List LogEvent :=
  match (do
      let raw ← env.matchCompletion schema
      let final := make_case_insensitive raw schema
      let pipeline := JVal.jarr [.jobj [("$match", final)]]
      let result ← env.aggregate db coll pipeline
      if found0 result then Except.error (PyErr.valueError "No data found")
      else .ok result) with
  | .ok r => (some r, [.tryingMatch db coll])
  | .error e => (none, [.tryingMatch db coll, .matchFailed db coll e])

/-- Embeds `try_query_with_match` from `src/gg.py` lines 67-89: identical except
that the zero-matches sentinel is the misspelled `found0_gg` string. -/
def try_query_with_match_gg (env : Env) (db coll schema : JVal) :
    Option JVal × List LogEvent :=
  match (do
      let raw ← env.matchCompletion schema
      let match_stage := make_case_insensitive raw schema
      let result ← env.aggregate db coll (.jarr [.jobj [("$match", match_stage)]])
      if found0_gg result then Except.error (PyErr.valueError "No data found")
      else .ok result) with
  | .ok r => (some r, [.tryingMatch db coll])
  | .error e => (none, [.tryingMatch db coll, .matchFailed db coll e])

/-- Embeds `try_query_with_aggregation` from `src/agent.py` lines 83-104: parse
the completion response and submit it verbatim as the pipeline — there is
no check that the parsed value is an array; any exception yields `None`. -/
def try_query_with_aggregation (env : Env) (db coll schema : JVal) :
    Option JVal × List LogEvent :=
  match (do
      let pipeline ← env.aggCompletion schema
      env.aggregate db coll pipeline) with
  | .ok r => (some r, [.tryingAgg db coll])
  | .error e => (none, [.tryingAgg db coll, .aggFailed db coll e])

/-- The fixed pipeline of `src/gg.py` lines 100-104. -/
def gg_fixed_pipeline (userInput : String) : JVal :=
  .jarr [.jobj [("$match", .jobj [("$text", .jobj [("$search", .jstr userInput)])])]]

/-- Embeds `try_query_with_aggregation` from `src/gg.py` lines 92-109: it never
calls the completion and ignores the schema; it hands a fixed full-text
search pipeline for the collection to a fresh tool-using agent. -/
def try_query_with_aggregation_gg (env : Env) (db coll schema : JVal) :
    Option JVal × List LogEvent :=
  match (do
      let query := JVal.jobj
        [("collection", coll), ("pipeline", gg_fixed_pipeline env.userInput)]
      env.subAgentInvoke query) with
  | .ok r => (some r, [.tryingAgg db coll])
  | .error e => (none, [.tryingAgg db coll, .aggFailed db coll e])

/-- The final outcome of one resolution attempt. -/
inductive Outcome where
  | agentSuccess : JVal → Outcome
  | matchSuccess : JVal → JVal → JVal → Outcome
  | aggSuccess : JVal → JVal → JVal → Outcome
  | allFailed : Outcome
deriving DecidableEq

/-- The candidate loop of `src/agent.py` lines 138-156 (`src/gg.py` lines
144-162): extract the database and collection names — unguarded, an
exception here escapes —, fetch the schema — guarded, a failure skips the
candidate —, then try the Match strategy and, when its result is falsy,
the Aggregate strategy, breaking on the first truthy result; when the list
runs out, report that all retries failed. -/
def candidate_loop (env : Env) (log : List LogEvent) :
    List JVal → Except PyErr (Outcome × List LogEvent)
  | [] => .ok (.allFailed, log ++ [.allRetriesFailed])
  | c :: rest =>
      match getItem c "database" with
      | .error e => .error e
      | .ok db =>
          match getItem c "collection" with
          | .error e => .error e
          | .ok coll =>
              match get_collection_schema env db coll with
              | .error _ =>
                  candidate_loop env (log ++ [.schemaLoadFailed db coll]) rest
              | .ok schema =>
                  let m := try_query_with_match env db coll schema
                  match m.fst.filter truthy with
                  | some r =>
                      .ok (.matchSuccess db coll r,
                           log ++ m.snd ++ [.matchResult db coll r])
                  | none =>
                      let a := try_query_with_aggregation env db coll schema
                      match a.fst.filter truthy with
                      | some r =>
                          .ok (.aggSuccess db coll r,
                               log ++ m.snd ++ a.snd ++ [.aggResult db coll r])
                      | none =>
                          candidate_loop env (log ++ m.snd ++ a.snd) rest

/-- The `try` body of the interactive loop, `src/agent.py` lines 121-130:
plan, run the autonomous agent, and raise when its text result reports
zero documents.  Any exception falls through to the fallback path. -/
def agent_attempt (env : Env) : Except PyErr JVal := do
  let _ ← env.planOutcome
  let result ← env.agentRun
  if found0 result then Except.error (PyErr.valueError "No documents found")
  else .ok result

/-- One full resolution attempt, `src/agent.py` lines 114-156: the agent
attempt, then — on its failure — the ranked-candidate fallback loop.  The
fallback section sits outside every handler, so an `.error` produced there
is an exception escaping the attempt. -/
def resolve (env : Env) : Except PyErr (Outcome × List LogEvent) :=
  match agent_attempt env with
  | .ok r => .ok (.agentSuccess r, [.agentResult r])
  | .error _ =>
      let cands := suggest_db_collection_candidates env
      match iterElems cands with
      | .error e => .error e
      | .ok elems => candidate_loop env [.agentFallback] elems

theorem mci_jobj (kvs : List (String × JVal)) (schema : JVal) :
    make_case_insensitive (.jobj kvs) schema = .jobj (mci_entries kvs schema) := by
  simp [make_case_insensitive]

theorem mci_entries_nil (schema : JVal) : mci_entries [] schema = [] := by
  simp [mci_entries]

theorem mci_entries_cons_str (k : String) (s : String) (schema : JVal)
    (rest : List (String × JVal)) :
    mci_entries ((k, .jstr s) :: rest) schema =
      (k, if pyIn k (stringFieldsOf schema) then
            JVal.jobj [("$regex", .jstr s), ("$options", .jstr "i")]
          else .jstr s) :: mci_entries rest schema := by
  simp [mci_entries]

theorem mci_entries_cons_obj (k : String) (inner : List (String × JVal))
    (schema : JVal) (rest : List (String × JVal)) :
    mci_entries ((k, .jobj inner) :: rest) schema =
      (k, make_case_insensitive (.jobj inner) schema) :: mci_entries rest schema := by
  simp [mci_entries]

theorem mci_entries_cons_null (k : String) (schema : JVal)
    (rest : List (String × JVal)) :
    mci_entries ((k, .jnull) :: rest) schema =
      (k, .jnull) :: mci_entries rest schema := by
  simp [mci_entries]

theorem mci_entries_cons_bool (k : String) (b : Bool) (schema : JVal)
    (rest : List (String × JVal)) :
    mci_entries ((k, .jbool b) :: rest) schema =
      (k, .jbool b) :: mci_entries rest schema := by
  simp [mci_entries]

theorem mci_entries_cons_num (k : String) (n : Int) (schema : JVal)
    (rest : List (String × JVal)) :
    mci_entries ((k, .jnum n) :: rest) schema =
      (k, .jnum n) :: mci_entries rest schema := by
  simp [mci_entries]

theorem mci_entries_cons_arr (k : String) (xs : List JVal) (schema : JVal)
    (rest : List (String × JVal)) :
    mci_entries ((k, .jarr xs) :: rest) schema =
      (k, .jarr xs) :: mci_entries rest schema := by
  simp [mci_entries]

theorem mci_pattern_fixed (s : String) (schema : JVal)
    (h1 : pyIn "$regex" (stringFieldsOf schema) = false)
    (h2 : pyIn "$options" (stringFieldsOf schema) = false) :
    make_case_insensitive
      (.jobj [("$regex", .jstr s), ("$options", .jstr "i")]) schema
      = .jobj [("$regex", .jstr s), ("$options", .jstr "i")] := by
  rw [mci_jobj, mci_entries_cons_str, mci_entries_cons_str, mci_entries_nil, h1, h2]
  simp

mutual

theorem mci_idem_val : ∀ (obj schema : JVal),
    pyIn "$regex" (stringFieldsOf schema) = false →
    pyIn "$options" (stringFieldsOf schema) = false →
    make_case_insensitive (make_case_insensitive obj schema) schema
      = make_case_insensitive obj schema
  | .jobj kvs, schema, h1, h2 => by
      rw [mci_jobj, mci_jobj, mci_idem_entries kvs schema h1 h2]
  | .jnull, schema, _, _ => by simp [make_case_insensitive]
  | .jbool b, schema, _, _ => by simp [make_case_insensitive]
  | .jnum n, schema, _, _ => by simp [make_case_insensitive]
  | .jstr s, schema, _, _ => by simp [make_case_insensitive]
  | .jarr xs, schema, _, _ => by simp [make_case_insensitive]
termination_by obj _ _ _ => sizeOf obj

theorem mci_idem_entries : ∀ (kvs : List (String × JVal)) (schema : JVal),
    pyIn "$regex" (stringFieldsOf schema) = false →
    pyIn "$options" (stringFieldsOf schema) = false →
    mci_entries (mci_entries kvs schema) schema = mci_entries kvs schema
  | [], schema, _, _ => by rw [mci_entries_nil, mci_entries_nil]
  | (k, .jstr s) :: rest, schema, h1, h2 => by
      rw [mci_entries_cons_str]
      by_cases hk : pyIn k (stringFieldsOf schema) = true
      · rw [if_pos hk, mci_entries_cons_obj,
            mci_pattern_fixed s schema h1 h2,
            mci_idem_entries rest schema h1 h2]
      · rw [if_neg hk, mci_entries_cons_str, if_neg hk,
            mci_idem_entries rest schema h1 h2]
  | (k, .jobj inner) :: rest, schema, h1, h2 => by
      rw [mci_entries_cons_obj]
      have hv := mci_idem_val (.jobj inner) schema h1 h2
      rw [mci_jobj inner schema] at hv
      rw [mci_jobj inner schema, mci_entries_cons_obj, hv,
          mci_idem_entries rest schema h1 h2]
  | (k, .jnull) :: rest, schema, h1, h2 => by
      rw [mci_entries_cons_null, mci_entries_cons_null,
          mci_idem_entries rest schema h1 h2]
  | (k, .jbool b) :: rest, schema, h1, h2 => by
      rw [mci_entries_cons_bool, mci_entries_cons_bool,
          mci_idem_entries rest schema h1 h2]
  | (k, .jnum n) :: rest, schema, h1, h2 => by
      rw [mci_entries_cons_num, mci_entries_cons_num,
          mci_idem_entries rest schema h1 h2]
  | (k, .jarr xs) :: rest, schema, h1, h2 => by
      rw [mci_entries_cons_arr, mci_entries_cons_arr,
          mci_idem_entries rest schema h1 h2]
termination_by kvs _ _ _ => sizeOf kvs

end

/-- Schema of the C4 counterexample: a collection that (legally) has a
string-typed field literally named `$regex` alongside `color`. -/
def c4schema : JVal :=
  .jobj [("string_fields", .jarr [.jstr "color", .jstr "$regex"])]

/-- Filter of the C4 counterexample. -/
def c4filter : JVal := .jobj [("color", .jstr "red")]

/-- C4 (counterexample): the claim "for every Filter f and Schema s the
case-insensitive rewrite is idempotent" is false as stated: for a schema
whose string-field set contains the name `$regex`, the pattern condition
produced by the first pass is re-wrapped by the second pass. -/
theorem C4_counterexample :
    make_case_insensitive (make_case_insensitive c4filter c4schema) c4schema ≠
      make_case_insensitive c4filter c4schema := by decide

/-- C4 (amended): for every Filter `f` and Schema `s` whose string-field
set contains neither `$regex` nor `$options`, applying the case-insensitive
rewrite twice with the same `s` equals applying it once — pattern
conditions produced by the first pass are never re-wrapped. -/
theorem C4_amended (f s : JVal)
    (h1 : pyIn "$regex" (stringFieldsOf s) = false)
    (h2 : pyIn "$options" (stringFieldsOf s) = false) :
    make_case_insensitive (make_case_insensitive f s) s
      = make_case_insensitive f s :=
  mci_idem_val f s h1 h2

/-- Schema of the C4 witness. -/
def c4wschema : JVal :=
  .jobj [("string_fields", .jarr [.jstr "color", .jstr "make"])]

/-- Filter of the C4 witness, with a literal, a nested dict and a number. -/
def c4wfilter : JVal :=
  .jobj [("color", .jstr "Red"),
         ("engine", .jobj [("make", .jstr "BMW"), ("cc", .jnum 1998)]),
         ("year", .jnum 2020)]

/-- Witness for C4: the amended theorem at a concrete filter and schema. -/
theorem C4_witness :
    pyIn "$regex" (stringFieldsOf c4wschema) = false ∧
    pyIn "$options" (stringFieldsOf c4wschema) = false ∧
    make_case_insensitive (make_case_insensitive c4wfilter c4wschema) c4wschema
      = make_case_insensitive c4wfilter c4wschema :=
  ⟨by decide, by decide, C4_amended c4wfilter c4wschema (by decide) (by decide)⟩

/-- A collaborator world in which everything fails; concrete scenarios
override the fields they need. -/
def baseEnv : Env where
  userInput := "find red cars"
  planOutcome := .ok (.jstr "plan")
  agentRun := .error (.external "agent down")
  listDatabases := .error (.external "tool down")
  listCollections := fun _ => .error (.external "tool down")
  rankCompletion := fun _ => .error (.external "llm down")
  collectionSchema := fun _ _ => .error (.external "tool down")
  matchCompletion := fun _ => .error (.external "llm down")
  aggCompletion := fun _ => .error (.external "llm down")
  aggregate := fun _ _ _ => .error (.external "tool down")
  subAgentInvoke := fun _ => .error (.external "agent down")

/-- Environment of the C7 counterexample: the inventory is empty and the
ranking completion answers with syntactically valid JSON that is not an
array of database/collection pairs. -/
def c7env : Env :=
  { baseEnv with
    listDatabases := .ok (.jobj [("databases", .jarr [])]),
    rankCompletion := fun _ => .ok (.jobj [("x", .jnum 1)]) }

/-- C7 (counterexample): a ranking completion output that parses as JSON
but is not a well-formed array of database/collection pairs is returned
as-is, not replaced by the single configured default candidate. -/
theorem C7_counterexample :
    suggest_db_collection_candidates c7env = .jobj [("x", .jnum 1)] ∧
    suggest_db_collection_candidates c7env ≠ fallback_candidates := by decide

/-- C7 (amended): the ranker never raises; it returns the configured
default exactly when the inventory/completion pipeline raises (in
particular when listing databases fails, or when `json.loads` of the
completion output fails, both folded into `rank_pipeline`); a successfully
parsed output is returned verbatim, with no validation of its shape. -/
theorem C7_amended (env : Env) :
    (∀ e, rank_pipeline env = .error e →
      suggest_db_collection_candidates env = fallback_candidates) ∧
    (∀ e, env.listDatabases = .error e →
      suggest_db_collection_candidates env = fallback_candidates) ∧
    (∀ v, rank_pipeline env = .ok v →
      suggest_db_collection_candidates env = v) := by
  refine ⟨fun e h => ?_, fun e h => ?_, fun v h => ?_⟩
  · simp [suggest_db_collection_candidates, h]
  · have hrp : rank_pipeline env = .error e := by
      unfold rank_pipeline
      rw [h]
      rfl
    simp [suggest_db_collection_candidates, hrp]
  · simp [suggest_db_collection_candidates, h]

/-- Environment of the C7 witness: the database listing itself fails. -/
def c7wenv : Env := baseEnv

/-- Witness for C7: with the database listing failing, the ranker returns
the configured default candidate. -/
theorem C7_witness :
    suggest_db_collection_candidates c7wenv = fallback_candidates :=
  (C7_amended c7wenv).2.1 (.external "tool down") rfl

/-- Environment of the C8 counterexample: two databases, listing the
collections of the second one fails, and the ranking completion — were it
ever consulted — would answer with a specific ranked pair. -/
def c8env : Env :=
  { baseEnv with
    listDatabases := .ok (.jobj [("databases",
      .jarr [.jobj [("name", .jstr "db1")], .jobj [("name", .jstr "db2")]])]),
    listCollections := fun db =>
      if db = .jstr "db1" then
        .ok (.jobj [("collections", .jarr [.jobj [("name", .jstr "c1")]])])
      else .error (.external "boom"),
    rankCompletion := fun _ =>
      .ok (.jarr [.jobj [("database", .jstr "ranked_db"),
                         ("collection", .jstr "ranked_coll")]]) }

/-- C8 (counterexample): in `src/agent.py` a failure of the
list-collections call for a single database aborts the whole inventory
round-trip — the completion is never consulted and the ranker degrades to
the fallback candidate instead of ranking the remaining databases. -/
theorem C8_counterexample :
    rank_pipeline c8env = .error (.external "boom") ∧
    suggest_db_collection_candidates c8env = fallback_candidates ∧
    fallback_candidates ≠
      .jarr [.jobj [("database", .jstr "ranked_db"),
                    ("collection", .jstr "ranked_coll")]] := by decide

/-- C8 (amended): in `src/gg.py` a failing list-collections call excludes
only that database from the inventory and the loop goes on; in
`src/agent.py` the same failure propagates out of the inventory loop (and
is then caught by the ranker's global handler, which yields the fallback
candidate). -/
theorem C8_amended (env : Env) :
    (∀ (pre post : List JVal) (d : JVal) (e : PyErr),
      collections_for env d = .error e →
      build_inventory_gg env (pre ++ d :: post) = build_inventory_gg env (pre ++ post)) ∧
    (∀ (pre post : List JVal) (d : JVal) (e : PyErr),
      (∀ db ∈ pre, ∃ v, collections_for env db = .ok v) →
      collections_for env d = .error e →
      build_inventory env (pre ++ d :: post) = .error e) := by
  constructor
  · intro pre post d e hd
    induction pre with
    | nil => simp [build_inventory_gg, hd]
    | cons db rest ih =>
        simp only [List.cons_append, build_inventory_gg]
        cases collections_for env db <;> simp [ih]
  · intro pre post d e hpre hd
    induction pre with
    | nil =>
        simp only [List.nil_append, build_inventory, hd, exceptBind_error]
    | cons db rest ih =>
        obtain ⟨v, hv⟩ := hpre db (List.mem_cons_self db rest)
        simp only [List.cons_append, build_inventory, hv, exceptBind_ok,
          List.append_eq]
        rw [ih (fun x hx => hpre x (List.mem_cons_of_mem db hx))]
        rfl

/-- Witness for C8: both parts of the amended theorem applied in the
two-database world of the counterexample, where collections of `db2`
cannot be listed. -/
theorem C8_witness :
    build_inventory_gg c8env [.jstr "db1", .jstr "db2"]
      = build_inventory_gg c8env [.jstr "db1"] ∧
    build_inventory c8env [.jstr "db1", .jstr "db2"]
      = .error (.external "boom") := by
  constructor
  · exact (C8_amended c8env).1 [.jstr "db1"] [] (.jstr "db2")
      (.external "boom") (by decide)
  · exact (C8_amended c8env).2 [.jstr "db1"] [] (.jstr "db2")
      (.external "boom")
      (by intro db hdb
          simp only [List.mem_singleton] at hdb
          subst hdb
          exact ⟨.jarr [.jstr "c1"], by decide⟩)
      (by decide)

/-- Environment of the C9 counterexample: the schema-description
collaborator answers successfully but reports no field descriptions. -/
def c9env : Env :=
  { baseEnv with
    collectionSchema := fun _ _ => .ok (.jobj [("fields", .jarr [])]) }

/-- C9 (counterexample): when the schema-description collaborator returns
no field descriptions, `get_collection_schema` does not fail — it returns
a Schema whose string-field set is empty, so the candidate is not
skipped.  This refutes "fails with SchemaUnavailable ... when it returns
no field descriptions; it never returns a Schema in either case". -/
theorem C9_counterexample :
    get_collection_schema c9env (.jstr "db") (.jstr "coll")
      = .ok (.jobj [("fields", .jarr []), ("string_fields", .jarr [])]) := by
  decide

/-- C9 (amended): `get_collection_schema` propagates a failure — which the
Controller treats as skip-this-candidate — exactly when the collaborator
call (or the subsequent shape access) raises; when the collaborator
returns a mapping with no field descriptions, it succeeds and returns that
mapping extended with an empty string-field list. -/
theorem C9_amended (env : Env) (db coll : JVal) :
    (∀ e, env.collectionSchema db coll = .error e →
      get_collection_schema env db coll = .error e) ∧
    (∀ kvs, env.collectionSchema db coll = .ok (.jobj kvs) →
      (kvs.lookup "fields").getD (.jarr []) = .jarr [] →
      get_collection_schema env db coll
        = .ok (.jobj (dictUpdate kvs "string_fields" (.jarr [])))) := by
  constructor
  · intro e h
    unfold get_collection_schema
    rw [h]
    rfl
  · intro kvs h hflds
    unfold get_collection_schema
    rw [h]
    simp [dictGet, hflds, iterElems, extract_string_fields, dictMergeKey]

/-- Witness for C9: both parts of the amended theorem at concrete worlds. -/
theorem C9_witness :
    get_collection_schema baseEnv (.jstr "db") (.jstr "coll")
      = .error (.external "tool down") ∧
    get_collection_schema c9env (.jstr "db") (.jstr "coll")
      = .ok (.jobj (dictUpdate [("fields", .jarr [])] "string_fields" (.jarr []))) := by
  constructor
  · exact (C9_amended baseEnv (.jstr "db") (.jstr "coll")).1
      (.external "tool down") rfl
  · exact (C9_amended c9env (.jstr "db") (.jstr "coll")).2
      [("fields", .jarr [])] rfl (by decide)

/-- Schema dict used by the C5 and C6 scenarios. -/
def c5schema : JVal := .jobj [("string_fields", .jarr [.jstr "color"])]

/-- Environment of the C5 counterexample: the match completion parses to an
empty filter and the aggregation collaborator answers with a text result
reporting zero matches. -/
def c5env : Env :=
  { baseEnv with
    matchCompletion := fun _ => .ok (.jobj []),
    aggregate := fun _ _ _ => .ok (.jstr "Found 0 documents") }

/-- C5 (counterexample): a result textually reporting zero matches is not
a distinct `Empty` outcome.  In `src/agent.py` it is converted into an
exception caught by the same handler as a transport/parse failure: the
outcome is the same `None` and the same error line is printed — so it is
not true that "only Failure is logged as an error".  In `src/gg.py` the
sentinel is misspelled, so the zero-matches report is not detected at all
and is returned as a success. -/
theorem C5_counterexample :
    try_query_with_match c5env (.jstr "d") (.jstr "c") c5schema
      = (none, [.tryingMatch (.jstr "d") (.jstr "c"),
                .matchFailed (.jstr "d") (.jstr "c")
                  (.valueError "No data found")]) ∧
    try_query_with_match_gg c5env (.jstr "d") (.jstr "c") c5schema
      = (some (.jstr "Found 0 documents"),
         [.tryingMatch (.jstr "d") (.jstr "c")]) := by decide

/-- C5 (amended): in `src/agent.py`'s Match strategy, an aggregation
result textually reporting zero matches is converted into an internal
exception and yields exactly the same outcome as a transport/parse
failure: `None`, with the same error line logged; both outcomes make the
Controller proceed to the next strategy.  (In `src/gg.py` the sentinel
string is misspelled, so a zero-matches report is returned as a success
there.) -/
theorem C5_amended (env : Env) (db coll schema raw result : JVal)
    (hc : env.matchCompletion schema = .ok raw)
    (ha : env.aggregate db coll
        (.jarr [.jobj [("$match", make_case_insensitive raw schema)]])
        = .ok result)
    (hz : found0 result = true) :
    try_query_with_match env db coll schema
      = (none, [.tryingMatch db coll,
                .matchFailed db coll (.valueError "No data found")]) := by
  unfold try_query_with_match
  rw [hc]
  simp [ha, hz]

/-- Witness for C5: the amended theorem in the zero-matches world. -/
theorem C5_witness :
    try_query_with_match c5env (.jstr "db") (.jstr "cars") c5schema
      = (none, [.tryingMatch (.jstr "db") (.jstr "cars"),
                .matchFailed (.jstr "db") (.jstr "cars")
                  (.valueError "No data found")]) :=
  C5_amended c5env (.jstr "db") (.jstr "cars") c5schema (.jobj [])
    (.jstr "Found 0 documents") rfl rfl (by decide)

/-- Environment of the C6 counterexample for `src/agent.py`: the pipeline
completion parses to a JSON object (not an array), and the aggregation
collaborator accepts exactly that object as its pipeline. -/
def c6env : Env :=
  { baseEnv with
    aggCompletion := fun _ => .ok (.jobj [("a", .jnum 1)]),
    aggregate := fun _ _ p =>
      if p = .jobj [("a", .jnum 1)] then .ok (.jstr "ok")
      else .error (.external "bad pipeline") }

/-- Environment of the C6 counterexample for `src/gg.py`: the completion
call fails outright, yet the strategy succeeds through its sub-agent. -/
def c6ggenv : Env :=
  { baseEnv with
    subAgentInvoke := fun _ => .ok (.jstr "sub-agent result") }

/-- C6 (counterexample): in `src/agent.py` a completion response that
parses to a JSON *object* is submitted verbatim as the pipeline and the
strategy can succeed — there is no "parses as a JSON array" step whose
failure yields Failure.  In `src/gg.py` the strategy succeeds although the
completion is never called (here it would fail): the pipeline does not
come from the completion at all. -/
theorem C6_counterexample :
    try_query_with_aggregation c6env (.jstr "d") (.jstr "c") c5schema
      = (some (.jstr "ok"), [.tryingAgg (.jstr "d") (.jstr "c")]) ∧
    c6ggenv.aggCompletion c5schema = .error (.external "llm down") ∧
    try_query_with_aggregation_gg c6ggenv (.jstr "d") (.jstr "c") c5schema
      = (some (.jstr "sub-agent result"),
         [.tryingAgg (.jstr "d") (.jstr "c")]) := by decide

/-- C6 (amended): in `src/agent.py`, `try_query_with_aggregation` obtains
its pipeline by calling the completion with the request and schema as
context and `json.loads`-ing the response — whatever JSON value results,
array or not, is submitted verbatim via the aggregation collaborator —
and any completion/parse error or collaborator error yields Failure
(`None`).  In `src/gg.py` the strategy ignores the completion and the
schema and submits a fixed full-text-search pipeline through a fresh
tool-using agent. -/
theorem C6_amended (env : Env) (db coll schema : JVal) :
    (∀ p r, env.aggCompletion schema = .ok p →
      env.aggregate db coll p = .ok r →
      try_query_with_aggregation env db coll schema
        = (some r, [.tryingAgg db coll])) ∧
    (∀ e, env.aggCompletion schema = .error e →
      try_query_with_aggregation env db coll schema
        = (none, [.tryingAgg db coll, .aggFailed db coll e])) ∧
    (∀ p e, env.aggCompletion schema = .ok p →
      env.aggregate db coll p = .error e →
      try_query_with_aggregation env db coll schema
        = (none, [.tryingAgg db coll, .aggFailed db coll e])) ∧
    (∀ schema2,
      try_query_with_aggregation_gg env db coll schema
        = try_query_with_aggregation_gg env db coll schema2) := by
  refine ⟨fun p r hp hr => ?_, fun e he => ?_, fun p e hp he => ?_,
    fun schema2 => rfl⟩
  · unfold try_query_with_aggregation
    rw [hp]
    simp [hr]
  · unfold try_query_with_aggregation
    rw [he]
    rfl
  · unfold try_query_with_aggregation
    rw [hp]
    simp [he]

/-- Witness for C6: the first and second clauses of the amended theorem at
concrete worlds. -/
theorem C6_witness :
    try_query_with_aggregation c6env (.jstr "db") (.jstr "cars") c5schema
      = (some (.jstr "ok"), [.tryingAgg (.jstr "db") (.jstr "cars")]) ∧
    try_query_with_aggregation baseEnv (.jstr "db") (.jstr "cars") c5schema
      = (none, [.tryingAgg (.jstr "db") (.jstr "cars"),
                .aggFailed (.jstr "db") (.jstr "cars")
                  (.external "llm down")]) :=
  ⟨(C6_amended c6env (.jstr "db") (.jstr "cars") c5schema).1
      (.jobj [("a", .jnum 1)]) (.jstr "ok") rfl (by decide),
   (C6_amended baseEnv (.jstr "db") (.jstr "cars") c5schema).2.1
      (.external "llm down") rfl⟩

theorem try_match_none_shape (env : Env) (db coll schema : JVal)
    (M : List LogEvent)
    (h : try_query_with_match env db coll schema = (none, M)) :
    ∃ e, M = [.tryingMatch db coll, .matchFailed db coll e] := by
  unfold try_query_with_match at h
  cases hc : env.matchCompletion schema with
  | error e =>
      rw [hc] at h
      simp only [exceptBind_error, Prod.mk.injEq] at h
      exact ⟨e, h.2.symm⟩
  | ok raw =>
      rw [hc] at h
      simp only [exceptBind_ok] at h
      cases ha : env.aggregate db coll
          (.jarr [.jobj [("$match", make_case_insensitive raw schema)]]) with
      | error e =>
          rw [ha] at h
          simp only [exceptBind_error, Prod.mk.injEq] at h
          exact ⟨e, h.2.symm⟩
      | ok result =>
          rw [ha] at h
          simp only [exceptBind_ok] at h
          by_cases hz : found0 result = true
          · simp only [hz, if_true, Prod.mk.injEq] at h
            exact ⟨.valueError "No data found", h.2.symm⟩
          · simp only [hz, Bool.false_eq_true, if_false] at h
            simp at h

theorem try_agg_some_shape (env : Env) (db coll schema X : JVal)
    (A : List LogEvent)
    (h : try_query_with_aggregation env db coll schema = (some X, A)) :
    A = [.tryingAgg db coll] := by
  unfold try_query_with_aggregation at h
  cases hc : env.aggCompletion schema with
  | error e =>
      rw [hc] at h
      simp at h
  | ok p =>
      rw [hc] at h
      simp only [exceptBind_ok] at h
      cases ha : env.aggregate db coll p with
      | error e =>
          rw [ha] at h
          simp at h
      | ok r =>
          rw [ha] at h
          simp only [Prod.mk.injEq] at h
          exact h.2.symm

/-- Schema value produced by `get_collection_schema` in the worlds where
the collaborator reports no fields. -/
def emptySchema : JVal := .jobj [("fields", .jarr []), ("string_fields", .jarr [])]

/-- Environment of the C1 counterexample: the agent and the ranking fail
(the fallback candidate is used), the schema loads with no fields, the
match completion fails, and the aggregation strategy succeeds — with an
empty result set. -/
def c1env : Env :=
  { baseEnv with
    collectionSchema := fun _ _ => .ok (.jobj [("fields", .jarr [])]),
    aggCompletion := fun _ => .ok (.jarr []),
    aggregate := fun _ _ _ => .ok (.jarr []) }

/-- C1 (counterexample): the Match strategy fails and the Aggregate
strategy returns `Success(X)` with `X = []` (the collaborator returned an
empty result list without raising), yet the Controller does not terminate
with `X`: the empty list is falsy, so the loop moves on and ends in the
all-retries-failed state. -/
theorem C1_counterexample :
    (try_query_with_match c1env (.jstr "car_database") (.jstr "cars")
      emptySchema).fst = none ∧
    (try_query_with_aggregation c1env (.jstr "car_database") (.jstr "cars")
      emptySchema).fst = some (.jarr []) ∧
    resolve c1env =
      .ok (.allFailed,
           [.agentFallback,
            .tryingMatch (.jstr "car_database") (.jstr "cars"),
            .matchFailed (.jstr "car_database") (.jstr "cars")
              (.external "llm down"),
            .tryingAgg (.jstr "car_database") (.jstr "cars"),
            .allRetriesFailed]) := by decide

/-- C1 (amended): for every candidate whose database/collection keys
resolve and whose schema loads, if the Match strategy returns
`Empty`/`Failure` (both are `None` in the code) and the Aggregate strategy
returns `Success(X)` with a truthy (non-empty) payload `X`, then the
Controller terminates with final output `X`, having tried the two
strategies in the fixed order Match then Aggregate (the Match log events
precede the Aggregate log event in the final log). -/
theorem C1_amended (env : Env) (c : JVal) (rest : List JVal)
    (log : List LogEvent) (db coll schema X : JVal) (M A : List LogEvent)
    (hdb : getItem c "database" = .ok db)
    (hcoll : getItem c "collection" = .ok coll)
    (hs : get_collection_schema env db coll = .ok schema)
    (hm : try_query_with_match env db coll schema = (none, M))
    (ha : try_query_with_aggregation env db coll schema = (some X, A))
    (ht : truthy X = true) :
    candidate_loop env log (c :: rest)
      = .ok (.aggSuccess db coll X, log ++ M ++ A ++ [.aggResult db coll X]) ∧
    A = [.tryingAgg db coll] ∧
    (∃ e, M = [.tryingMatch db coll, .matchFailed db coll e]) := by
  refine ⟨?_, try_agg_some_shape env db coll schema X A ha,
    try_match_none_shape env db coll schema M hm⟩
  simp only [candidate_loop, hdb, hcoll, hs, hm, ha]
  simp [Option.filter, ht]

/-- Environment of the C1 witness: as the counterexample, but the
aggregation collaborator returns a non-empty (truthy) result. -/
def c1wenv : Env :=
  { baseEnv with
    collectionSchema := fun _ _ => .ok (.jobj [("fields", .jarr [])]),
    aggCompletion := fun _ => .ok (.jarr [.jobj [("$match", .jobj [])]]),
    aggregate := fun _ _ _ => .ok (.jstr "two documents") }

/-- A well-formed concrete candidate. -/
def wcand : JVal :=
  .jobj [("database", .jstr "db"), ("collection", .jstr "c")]

/-- Witness for C1: the amended theorem in a world where the Match
strategy fails and the Aggregate strategy returns a truthy result. -/
theorem C1_witness :
    candidate_loop c1wenv [] [wcand]
      = .ok (.aggSuccess (.jstr "db") (.jstr "c") (.jstr "two documents"),
             [] ++ [.tryingMatch (.jstr "db") (.jstr "c"),
                    .matchFailed (.jstr "db") (.jstr "c")
                      (.external "llm down")]
                ++ [.tryingAgg (.jstr "db") (.jstr "c")]
                ++ [.aggResult (.jstr "db") (.jstr "c")
                      (.jstr "two documents")]) :=
  (C1_amended c1wenv wcand [] [] (.jstr "db") (.jstr "c") emptySchema
    (.jstr "two documents")
    [.tryingMatch (.jstr "db") (.jstr "c"),
     .matchFailed (.jstr "db") (.jstr "c") (.external "llm down")]
    [.tryingAgg (.jstr "db") (.jstr "c")]
    (by decide) (by decide) (by decide) (by decide) (by decide) (by decide)).1

/-- C2: when schema introspection fails for a candidate, the Controller
transitions directly to the next candidate, the only trace of the
candidate being the schema-load-failure line — in particular the Match and
Aggregate strategies are never invoked for it (the contributed event is
neither a Match nor an Aggregate invocation). -/
theorem C2_claim (env : Env) (c : JVal) (rest : List JVal)
    (log : List LogEvent) (db coll : JVal) (e : PyErr)
    (hdb : getItem c "database" = .ok db)
    (hcoll : getItem c "collection" = .ok coll)
    (hs : get_collection_schema env db coll = .error e) :
    candidate_loop env log (c :: rest)
      = candidate_loop env (log ++ [.schemaLoadFailed db coll]) rest ∧
    (∀ d k, LogEvent.schemaLoadFailed db coll ≠ .tryingMatch d k) ∧
    (∀ d k, LogEvent.schemaLoadFailed db coll ≠ .tryingAgg d k) := by
  refine ⟨?_, fun d k => by simp, fun d k => by simp⟩
  simp only [candidate_loop, hdb, hcoll, hs]

/-- Witness for C2: the schema collaborator of `baseEnv` always fails, so
the loop on one candidate reduces to the loop on no candidates. -/
theorem C2_witness :
    candidate_loop baseEnv [] [wcand]
      = candidate_loop baseEnv
          ([] ++ [.schemaLoadFailed (.jstr "db") (.jstr "c")]) [] :=
  (C2_claim baseEnv wcand [] [] (.jstr "db") (.jstr "c")
    (.external "tool down") (by decide) (by decide) (by decide)).1

/-- C10: the Controller decides strategy success by Python truthiness of
the returned payload, so a strategy invocation that succeeds with a falsy
payload (empty list, empty string, ...) is treated exactly like
`Empty`/`Failure`: with both strategies succeeding falsily the loop
advances to the next candidate instead of terminating with the empty
result. -/
theorem C10_claim (env : Env) (c : JVal) (rest : List JVal)
    (log : List LogEvent) (db coll schema r r2 : JVal) (M A : List LogEvent)
    (hdb : getItem c "database" = .ok db)
    (hcoll : getItem c "collection" = .ok coll)
    (hs : get_collection_schema env db coll = .ok schema)
    (hm : try_query_with_match env db coll schema = (some r, M))
    (hr : truthy r = false)
    (ha : try_query_with_aggregation env db coll schema = (some r2, A))
    (hr2 : truthy r2 = false) :
    candidate_loop env log (c :: rest)
      = candidate_loop env (log ++ M ++ A) rest := by
  simp only [candidate_loop, hdb, hcoll, hs, hm, ha]
  simp [Option.filter, hr, hr2]

/-- Environment of the C10 witness: both strategies "succeed" but the
aggregation collaborator returns an empty result list. -/
def c10env : Env :=
  { baseEnv with
    collectionSchema := fun _ _ => .ok (.jobj [("fields", .jarr [])]),
    matchCompletion := fun _ => .ok (.jobj []),
    aggCompletion := fun _ => .ok (.jarr []),
    aggregate := fun _ _ _ => .ok (.jarr []) }

/-- Witness for C10: both strategies return `Success([])`; the loop on one
candidate reduces to the loop on the rest. -/
theorem C10_witness :
    candidate_loop c10env [] [wcand]
      = candidate_loop c10env
          ([] ++ [.tryingMatch (.jstr "db") (.jstr "c")]
              ++ [.tryingAgg (.jstr "db") (.jstr "c")]) [] :=
  C10_claim c10env wcand [] [] (.jstr "db") (.jstr "c") emptySchema
    (.jarr []) (.jarr [])
    [.tryingMatch (.jstr "db") (.jstr "c")]
    [.tryingAgg (.jstr "db") (.jstr "c")]
    (by decide) (by decide) (by decide) (by decide) (by decide)
    (by decide) (by decide)

/-- A parsed ranker candidate on which the Controller's unguarded
`candidate["database"], candidate["collection"]` accesses succeed. -/
def goodCandidate (c : JVal) : Bool :=
  match getItem c "database", getItem c "collection" with
  | .ok _, .ok _ => true
  | _, _ => false

/-- The parsed ranker output is an array of candidates on each of which
the Controller's unguarded key accesses succeed. -/
def wellFormedCandidates (v : JVal) : Bool :=
  match v with
  | .jarr xs => xs.all goodCandidate
  | _ => false

theorem candidate_loop_total (env : Env) :
    ∀ (elems : List JVal),
      (∀ c ∈ elems, goodCandidate c = true) →
      ∀ log, ∃ out, candidate_loop env log elems = .ok out
  | [], _, log => ⟨_, rfl⟩
  | c :: rest, h, log => by
      have hc := h c (List.mem_cons_self c rest)
      have hrest : ∀ x ∈ rest, goodCandidate x = true :=
        fun x hx => h x (List.mem_cons_of_mem c hx)
      unfold goodCandidate at hc
      cases hdb : getItem c "database" with
      | error e => rw [hdb] at hc; simp at hc
      | ok db =>
          cases hcoll : getItem c "collection" with
          | error e => rw [hdb, hcoll] at hc; simp at hc
          | ok coll =>
              cases hsch : get_collection_schema env db coll with
              | error e =>
                  obtain ⟨out, hout⟩ := candidate_loop_total env rest hrest
                    (log ++ [.schemaLoadFailed db coll])
                  exact ⟨out, by
                    simp only [candidate_loop, hdb, hcoll, hsch]
                    exact hout⟩
              | ok schema =>
                  cases hmf : (try_query_with_match env db coll
                      schema).fst.filter truthy with
                  | some r =>
                      exact ⟨_, by
                        simp only [candidate_loop, hdb, hcoll, hsch, hmf]
                        rfl⟩
                  | none =>
                      cases haf : (try_query_with_aggregation env db coll
                          schema).fst.filter truthy with
                      | some r =>
                          exact ⟨_, by
                            simp only [candidate_loop, hdb, hcoll, hsch,
                              hmf, haf]
                            rfl⟩
                      | none =>
                          obtain ⟨out, hout⟩ := candidate_loop_total env rest
                            hrest
                            (log ++ (try_query_with_match env db coll
                                schema).snd
                              ++ (try_query_with_aggregation env db coll
                                schema).snd)
                          exact ⟨out, by
                            simp only [candidate_loop, hdb, hcoll, hsch,
                              hmf, haf]
                            exact hout⟩

/-- Environment of the C3 counterexample: the agent fails, the inventory is
empty, and the ranking completion answers with a JSON array whose element
lacks the `database`/`collection` keys. -/
def c3env : Env :=
  { baseEnv with
    listDatabases := .ok (.jobj [("databases", .jarr [])]),
    rankCompletion := fun _ => .ok (.jarr [.jobj [("name", .jstr "x")]]) }

/-- C3 (counterexample): with a ranker result whose element lacks the
`database` key, the resolution attempt raises an uncaught `KeyError`
(aborting the process): the `candidate["database"]` access in the
controller loop is not wrapped. -/
theorem C3_counterexample :
    resolve c3env = .error (.keyError "database") := by decide

/-- C3 (amended): every collaborator call site — agent attempt, ranking,
schema fetch, both strategies — is wrapped so that a thrown error degrades
the state machine, except the Controller's extraction of the
database/collection keys from each parsed ranker candidate: whenever the
ranker output is an array of objects each carrying both keys, no error
escapes the resolution attempt. -/
theorem C3_amended (env : Env)
    (h : wellFormedCandidates (suggest_db_collection_candidates env) = true) :
    ∃ out, resolve env = .ok out := by
  unfold resolve
  cases ha : agent_attempt env with
  | ok r => exact ⟨_, rfl⟩
  | error e =>
      cases hc : suggest_db_collection_candidates env with
      | jarr xs =>
          rw [hc] at h
          simp only [wellFormedCandidates, List.all_eq_true] at h
          obtain ⟨out, hout⟩ := candidate_loop_total env xs h [.agentFallback]
          exact ⟨out, by simp only [hc, iterElems]; exact hout⟩
      | jnull => rw [hc] at h; simp [wellFormedCandidates] at h
      | jbool b => rw [hc] at h; simp [wellFormedCandidates] at h
      | jnum n => rw [hc] at h; simp [wellFormedCandidates] at h
      | jstr s => rw [hc] at h; simp [wellFormedCandidates] at h
      | jobj kvs => rw [hc] at h; simp [wellFormedCandidates] at h

/-- Witness for C3: in the all-collaborators-down world the ranker yields
the (well-formed) fallback candidate and the attempt ends without an
uncaught error. -/
theorem C3_witness :
    wellFormedCandidates (suggest_db_collection_candidates baseEnv) = true ∧
    ∃ out, resolve baseEnv = .ok out :=
  ⟨by decide, C3_amended baseEnv (by decide)⟩
